import Mathlib

/-!
Verification of the AsanaPrint filtering-and-layout engine.

The definitions below are a shallow embedding of the Python sources:
  * `Filter.py`    — `FilterPanel.apply_filters`, `FilterPanel.build_from_df`,
                     `FilterPanel.get_scale_config`
  * `DataHandler.py` — `DataModel.clean`
  * `Renderer.py`  — `GanttRenderer._calculate_dimensions`,
                     `GanttRenderer.render`, `GanttRenderer.create_gantt_chart`

Dates are modelled as `Int` (days since an epoch): pandas timestamps are
totally ordered and the code only compares, subtracts and min/max-es them.
A cell of an attribute column is `Option String` (`none` = pandas NaN).
-/

namespace AsanaPrint

/-- One row of the in-memory task table: the mandatory columns
`TaskID`, `TaskName`, `StartDate`, `EndDate` plus the remaining CSV columns
as an association list from column name to optional string value
(`none` = missing / NaN). -/
structure Row where
  taskID : String
  taskName : String
  startDate : Int
  endDate : Int
  cells : List (String × Option String)
deriving DecidableEq

/-- The filter criteria held by the `FilterPanel` widgets:
the two `QDateEdit` values and, for each filter block built by
`build_from_df`, the list of currently selected item texts. -/
structure FilterSpec where
  startTs : Int
  endTs : Int
  selections : List (String × List String)
deriving DecidableEq

/-- The value `df[col]` for one row, as the optional raw value (`none` = NaN). -/
def Row.cellOpt (r : Row) (col : String) : Option String :=
  (r.cells.lookup col).join

/-- The value `df[col].astype(str)` for one row: pandas renders a NaN cell as the
string "nan". (The selection filters of `apply_filters` only target the
attribute columns discovered by `build_from_df`.) -/
def Row.getStr (r : Row) (col : String) : String :=
  match r.cells.lookup col with
  | some (some s) => s
  | some none => "nan"
  | none => "nan"

/-- The date-overlap mask of `FilterPanel.apply_filters` (Filter.py:264):
`(df["StartDate"] <= end_ts) & (df["EndDate"] >= start_ts)`. -/
def dateMask (startTs endTs : Int) (r : Row) : Bool :=
  decide (r.startDate ≤ endTs) && decide (startTs ≤ r.endDate)

/-- Embeds `pd.to_datetime(col).dt.tz_localize(None)` (Filter.py:261-262). The
tables reaching `apply_filters` come from `DataModel.clean`, whose
`StartDate`/`EndDate` are already parsed tz-naive timestamps, on which this
conversion is the identity. -/
def toDatetimeTzNaive (t : Int) : Int := t

/-- The two in-place date-column assignments of Filter.py:261-262 applied to
one row. -/
def normalizeDates (r : Row) : Row :=
  { r with startDate := toDatetimeTzNaive r.startDate,
           endDate := toDatetimeTzNaive r.endDate }

/-- The per-column selection loop of `apply_filters` (Filter.py:267-270):
for each filter block, if any items are selected, keep the rows whose
string value is among them; a block with no selection is skipped. -/
def applyColumnFilters (sels : List (String × List String)) (rows : List Row) :
    List Row :=
  sels.foldl
    (fun acc p =>
      if p.2.isEmpty then acc
      else acc.filter (fun r => p.2.contains (r.getStr p.1)))
    rows

/-- Embeds `FilterPanel.apply_filters` (Filter.py:252-275): early return on an empty
table, otherwise normalize the date columns, apply the date-overlap mask,
then the per-column selection filters. (The `QMessageBox` warning shown for
an empty result does not change the returned table.) -/
def applyFilters (spec : FilterSpec) (rows : List Row) : List Row :=
  if rows.isEmpty then rows
  else
    applyColumnFilters spec.selections
      ((rows.map normalizeDates).filter (dateMask spec.startTs spec.endTs))

/-- Whether one row passes every active column selection: for each block the
row's string value is among the selected items, or the block has no
selection. -/
def colsPass (sels : List (String × List String)) (r : Row) : Bool :=
  sels.all fun p => p.2.isEmpty || p.2.contains (r.getStr p.1)

/-- The full row predicate applied by `apply_filters`. -/
def fullPass (spec : FilterSpec) (r : Row) : Bool :=
  dateMask spec.startTs spec.endTs r && colsPass spec.selections r

lemma normalizeDates_eq (r : Row) : normalizeDates r = r := rfl

lemma map_normalizeDates (rows : List Row) : rows.map normalizeDates = rows := by
  have h : normalizeDates = id := funext fun r => normalizeDates_eq r
  rw [h, List.map_id]

lemma applyColumnFilters_nil (rows : List Row) :
    applyColumnFilters [] rows = rows := rfl

lemma applyColumnFilters_cons (p : String × List String)
    (rest : List (String × List String)) (rows : List Row) :
    applyColumnFilters (p :: rest) rows =
      applyColumnFilters rest
        (if p.2.isEmpty then rows
         else rows.filter (fun r => p.2.contains (r.getStr p.1))) := by
  simp only [applyColumnFilters, List.foldl_cons]

lemma applyColumnFilters_eq_filter (sels : List (String × List String)) :
    ∀ rows : List Row, applyColumnFilters sels rows = rows.filter (colsPass sels) := by
  induction sels with
  | nil =>
    intro rows
    rw [applyColumnFilters_nil]
    exact (List.filter_eq_self.mpr (fun a _ => by simp [colsPass])).symm
  | cons p rest ih =>
    intro rows
    rw [applyColumnFilters_cons, ih]
    by_cases hp : p.2.isEmpty
    · rw [if_pos hp]
      apply List.filter_congr
      intro r _
      simp [colsPass, hp]
    · rw [if_neg hp, List.filter_filter]
      apply List.filter_congr
      intro r _
      simp only [colsPass, List.all_cons, Bool.eq_false_iff.mpr hp,
        Bool.false_or, Bool.and_comm]

lemma applyFilters_eq_filter (spec : FilterSpec) (rows : List Row) :
    applyFilters spec rows = rows.filter (fullPass spec) := by
  unfold applyFilters
  by_cases h : rows.isEmpty
  · rw [if_pos h]
    rw [List.isEmpty_iff] at h
    subst h
    rfl
  · rw [if_neg h, map_normalizeDates, applyColumnFilters_eq_filter,
      List.filter_filter]
    apply List.filter_congr
    intro r _
    simp [fullPass, Bool.and_comm]

/-- Membership characterization of `apply_filters`: a row survives iff it was
in the input, its interval overlaps the window, and it passes every active
column selection. -/
lemma applyFilters_mem (spec : FilterSpec) (rows : List Row) (r : Row) :
    r ∈ applyFilters spec rows ↔
      r ∈ rows ∧ (r.startDate ≤ spec.endTs ∧ spec.startTs ≤ r.endDate) ∧
        colsPass spec.selections r = true := by
  rw [applyFilters_eq_filter, List.mem_filter]
  unfold fullPass dateMask
  simp [and_assoc]

/-- Embeds `FilterPanel.get_scale_config` (Filter.py:277-292): maps the Dutch
granularity label of the scale combo box to a `(dtick, tickformat)` pair,
falling back to the month configuration for anything unrecognized. -/
def get_scale_config (text : String) : String × String :=
  if text = "Dagen" then ("D1", "%d-%b")
  else if text = "Weken" then ("D7", "%d-%b")
  else if text = "Maanden" then ("M1", "%b\n%Y")
  else if text = "Kwartalen" then ("M3", "Q%q: %b\n%Y")
  else if text = "Jaren" then ("M12", "%Y")
  else ("M1", "%b\n%Y")

/-- The five recognized granularity labels of the scale combo box. -/
def scaleLabels : List String := ["Dagen", "Weken", "Maanden", "Kwartalen", "Jaren"]

/-- A task whose interval spans an entire inverted window: used to show that
an inverted date range does not force an empty filter result. -/
def spanRow : Row := { taskID := "1", taskName := "t", startDate := 1, endDate := 10, cells := [] }

/-- The reserved columns never offered as filters (Filter.py:9-11). -/
def IGNORE : List String :=
  ["TaskID", "TaskName", "StartDate", "EndDate", "Created",
   "Completed", "Last Modified", "Assignee Email", "Tags", "Parent task",
   "Blocked By (Dependencies)", "Blocking (Dependencies)"]

/-- An in-memory pandas dataframe: the ordered column names and the rows. -/
structure DataFrame where
  cols : List String
  rows : List Row
deriving DecidableEq

/-- The count `df[col].nunique()`: the number of distinct non-null values observed in
the column. -/
def nunique (df : DataFrame) (col : String) : Nat :=
  ((df.rows.filterMap fun r => r.cellOpt col).dedup).length

/-- Embeds `FilterPanel.build_from_df` (Filter.py:209-219): walks the dataframe's
columns in order and creates a filter block for every column that is not in
the reserved set and whose `nunique()` is positive; returns the columns a
block is created for. -/
def build_from_df (df : DataFrame) : List String :=
  df.cols.filter fun col => !IGNORE.contains col && decide (0 < nunique df col)

/-- A two-row table whose only attribute column holds the same value in
every row. -/
def constDf : DataFrame :=
  { cols := ["Priority"],
    rows := [{ taskID := "1", taskName := "a", startDate := 0, endDate := 0,
               cells := [("Priority", some "High")] },
             { taskID := "2", taskName := "b", startDate := 0, endDate := 0,
               cells := [("Priority", some "High")] }] }

/-- One raw CSV row after `pd.read_csv`: the two date cells as the result of
`pd.to_datetime(..., errors="coerce")` (`none` = NaT, i.e. the cell was
missing or unparseable), plus the remaining columns. -/
structure RawRow where
  taskID : String
  taskName : String
  startDate : Option Int
  endDate : Option Int
  cells : List (String × Option String)
deriving DecidableEq

/-- Embeds `DataModel.clean` (DataHandler.py:22-31): after renaming the Asana
column headers and coercing the two date columns, `dropna` drops exactly the
rows where either date is NaT; all surviving cell values pass through
unchanged. -/
def clean (rows : List RawRow) : List Row :=
  rows.filterMap fun raw =>
    match raw.startDate, raw.endDate with
    | some s, some e =>
      some { taskID := raw.taskID, taskName := raw.taskName,
             startDate := s, endDate := e, cells := raw.cells }
    | _, _ => none

/-- C1: the date-range filter of `apply_filters` keeps a task T iff
`T.start <= dateTo` and `T.end >= dateFrom` (interval overlap, not
containment); together with the active column selections this characterizes
exactly which rows survive. -/
theorem c1_date_filter_is_overlap (spec : FilterSpec) (rows : List Row) (r : Row) :
    r ∈ applyFilters spec rows ↔
      r ∈ rows ∧ (r.startDate ≤ spec.endTs ∧ spec.startTs ≤ r.endDate) ∧
        colsPass spec.selections r = true :=
  applyFilters_mem spec rows r

/-- C2 counterexample: with the inverted window dateFrom = 5 > dateTo = 3,
the task spanning [1,10] still passes `apply_filters`; the result is not
empty, so an inverted range does not always yield an empty result. -/
theorem c2_counterexample :
    (3 : Int) < 5 ∧ applyFilters ⟨5, 3, []⟩ [spanRow] = [spanRow] := by
  constructor
  · decide
  · rfl

/-- C2 (amended): an inverted window (dateFrom > dateTo) raises no error, and
the result contains exactly the tasks whose interval spans the whole inverted
window (`start <= dateTo` and `end >= dateFrom`) and that pass the column
selections; the result is empty only when no task spans that gap. -/
theorem c2_inverted_range (a b : Int) (sels : List (String × List String))
    (rows : List Row) (r : Row) (_hinv : b < a) :
    r ∈ applyFilters ⟨a, b, sels⟩ rows ↔
      r ∈ rows ∧ (r.startDate ≤ b ∧ a ≤ r.endDate) ∧ colsPass sels r = true :=
  applyFilters_mem ⟨a, b, sels⟩ rows r

/-- C2 witness: the amended characterization instantiated on the inverted
window [5,3] and the spanning task. -/
theorem c2_witness :
    spanRow ∈ applyFilters ⟨5, 3, []⟩ [spanRow] :=
  (c2_inverted_range 5 3 [] [spanRow] spanRow (by decide)).mpr (by decide)

/-- C6: a column whose accepted-value set is empty imposes no restriction —
filtering with an empty selection for a column returns exactly the same rows
as omitting that column's filter entirely, wherever the column sits in the
selection list. -/
theorem c6_empty_selection_no_restriction (a b : Int) (c : String)
    (pre post : List (String × List String)) (rows : List Row) :
    applyFilters ⟨a, b, pre ++ (c, []) :: post⟩ rows =
      applyFilters ⟨a, b, pre ++ post⟩ rows := by
  rw [applyFilters_eq_filter, applyFilters_eq_filter]
  apply List.filter_congr
  intro r _
  simp [fullPass, colsPass]

/-- C7: filtering is idempotent — applying `apply_filters` twice with the
same spec returns the same table as applying it once. -/
theorem c7_filter_idempotent (spec : FilterSpec) (rows : List Row) :
    applyFilters spec (applyFilters spec rows) = applyFilters spec rows := by
  have h := applyFilters_eq_filter spec rows
  rw [h, applyFilters_eq_filter]
  exact List.filter_eq_self.mpr fun a ha => (List.mem_filter.mp ha).2

/-- C8: scale resolution has no error path — every granularity string that is
not one of the five recognized labels resolves to exactly the month
configuration (same tick interval and tick label format), silently. -/
theorem c8_scale_fallback_month (text : String) (h : text ∉ scaleLabels) :
    get_scale_config text = get_scale_config "Maanden" := by
  simp only [scaleLabels, List.mem_cons, List.not_mem_nil, or_false, not_or] at h
  obtain ⟨h1, h2, h3, h4, h5⟩ := h
  rw [get_scale_config, if_neg h1, if_neg h2, if_neg h3, if_neg h4, if_neg h5]
  rfl

/-- C8 witness: the unrecognized label "bogus" resolves to the month
configuration. -/
theorem c8_witness : get_scale_config "bogus" = get_scale_config "Maanden" :=
  c8_scale_fallback_month "bogus" (by decide)

/-- C3 counterexample: in `constDf` every row holds the same single value
"High" in column "Priority" (one distinct observed value), yet
`build_from_df` creates a filter block for it — the discovery check
`nunique <= 0` only skips columns with zero observed values. -/
theorem c3_counterexample :
    build_from_df constDf = ["Priority"] ∧ nunique constDf "Priority" = 1 := by
  constructor
  · rfl
  · rfl

/-- C3 (amended): column discovery creates a filter block exactly for the
columns outside the reserved set with at least one (not two) distinct
observed value; a constant column does appear, only an all-missing column is
excluded. -/
theorem c3_discovery_excludes_only_empty_columns (df : DataFrame) (col : String) :
    col ∈ build_from_df df ↔
      col ∈ df.cols ∧ col ∉ IGNORE ∧ 0 < nunique df col := by
  unfold build_from_df
  rw [List.mem_filter]
  simp [and_assoc]

/-- A raw CSV row whose start date parses strictly after its end date. -/
def rawBad : RawRow :=
  { taskID := "1", taskName := "t", startDate := some 10, endDate := some 5, cells := [] }

/-- C4 counterexample: a row whose parsed start date (10) is after its end
date (5) survives `clean` unchanged — the loader never enforces
`start <= end`. -/
theorem c4_counterexample :
    clean [rawBad] =
      [{ taskID := "1", taskName := "t", startDate := 10, endDate := 5, cells := [] }]
    ∧ ¬ ((10 : Int) ≤ 5) := by
  constructor
  · rfl
  · decide

/-- C4 (amended): `clean` keeps exactly the rows whose start and end dates
both parsed, passing every field through unchanged; the `start <= end`
invariant is not checked, so rows violating it survive into the in-memory
table. -/
theorem c4_clean_keeps_iff_dates_parse (rows : List RawRow) (t : Row) :
    t ∈ clean rows ↔
      ∃ raw ∈ rows, raw.startDate = some t.startDate ∧ raw.endDate = some t.endDate ∧
        raw.taskID = t.taskID ∧ raw.taskName = t.taskName ∧ raw.cells = t.cells := by
  unfold clean
  rw [List.mem_filterMap]
  constructor
  · rintro ⟨raw, hmem, hf⟩
    refine ⟨raw, hmem, ?_⟩
    cases hs : raw.startDate with
    | none => rw [hs] at hf; simp at hf
    | some s =>
      cases he : raw.endDate with
      | none => rw [hs, he] at hf; simp at hf
      | some e =>
        rw [hs, he] at hf
        simp only [Option.some.injEq] at hf
        subst hf
        simp [hs, he]
  · rintro ⟨raw, hmem, hs, he, hid, hname, hcells⟩
    refine ⟨raw, hmem, ?_⟩
    rw [hs, he, hid, hname, hcells]

/-- Row ordering used by `render` (Renderer.py:300):
`df.sort_values(["StartDate", "EndDate"], ascending=[False, False])` —
latest start first, ties broken by latest end first. (pandas leaves the
relative order of fully tied rows unspecified; no claim below depends on
it.) -/
def taskBefore (a b : Row) : Prop :=
  b.startDate < a.startDate ∨ (a.startDate = b.startDate ∧ b.endDate ≤ a.endDate)

instance : DecidableRel taskBefore := fun a b => by
  unfold taskBefore
  infer_instance

/-- The sorted dataframe `df_sorted` of Renderer.py:300. -/
def sortTasks (rows : List Row) : List Row :=
  List.insertionSort taskBefore rows

/-- Embeds `GanttRenderer._calculate_dimensions` (Renderer.py:97-113). `current_df`
is the dataframe stored by the last successful `render` call (`none` before
any render). For a stored zero-row table, `max()`/`min()` of the empty date
columns yield NaT and the `.days` arithmetic produces no valid pixel size;
modelled as `none`. -/
def calculate_dimensions (current_df : Option (List Row)) (task_count : Nat)
    (row_height col_width : Int) : Option (Int × Int) :=
  match current_df with
  | none => some (1920, 1080)
  | some rows =>
    match (rows.map Row.endDate).max?, (rows.map Row.startDate).min? with
    | some mx, some mn =>
      some ((mx - mn) * col_width, (task_count : Int) * row_height)
    | _, _ => none

/-- The Python test `color_column and color_column in df.columns`
(Renderer.py:168 and 291): a color column is active when it is set, not the
empty string, and present among the dataframe's columns. -/
def colorActive (cc : Option String) (cols : List String) : Bool :=
  match cc with
  | none => false
  | some c => !(c == "") && cols.contains c

/-- The render-time color filter (Renderer.py:293):
`df[df[color_column].notna() & (df[color_column] != "")]` keeps a row iff
its value in the color column is present and not the empty string. -/
def keepColor (c : String) (r : Row) : Bool :=
  match r.cellOpt c with
  | some v => !(v == "")
  | none => false

/-- Lexicographic string order via the underlying character lists; proved
below (`strLe_iff_le`) to agree with the standard `String` order. -/
def strLe (a b : String) : Prop := a.toList ≤ b.toList

instance : DecidableRel strLe := fun a b => by
  unfold strLe
  infer_instance

lemma strLe_iff_le (a b : String) : strLe a b ↔ a ≤ b :=
  String.le_iff_toList_le.symm

/-- Embeds `df.groupby(color_column)` (Renderer.py:171): one group per distinct
non-null key, keys in ascending order, each group keeping the dataframe's
row order. -/
def groupsBy (c : String) (rows : List Row) : List (String × List Row) :=
  (List.insertionSort strLe ((rows.filterMap fun r => r.cellOpt c).dedup)).map
    fun v => (v, rows.filter fun r => r.cellOpt c == some v)

/-- Embeds `GanttRenderer.create_gantt_chart` (Renderer.py:151-204): one `go.Bar`
trace per group — a single "Tasks" trace holding every row when no valid
color column is set, otherwise one trace per groupby group. -/
def create_gantt_chart (cc : Option String) (cols : List String)
    (rows : List Row) : List (String × List Row) :=
  if colorActive cc cols then groupsBy (cc.getD "") rows
  else [("Tasks", rows)]

/-- Embeds `GanttRenderer.render` (Renderer.py:271-348), reduced to the bar traces
of the produced figure: `None` when the input table is empty or when the
color filter empties it, otherwise the traces drawn over the sorted rows. -/
def render (df : DataFrame) (cc : Option String) :
    Option (List (String × List Row)) :=
  if df.rows.isEmpty then none
  else if colorActive cc df.cols then
    if (df.rows.filter (keepColor (cc.getD ""))).isEmpty then none
    else some (create_gantt_chart cc df.cols
      (sortTasks (df.rows.filter (keepColor (cc.getD "")))))
  else some (create_gantt_chart cc df.cols (sortTasks df.rows))

/-- Total number of task bars across all traces of a rendered chart. -/
def totalBars (chart : Option (List (String × List Row))) : Nat :=
  match chart with
  | none => 0
  | some groups => (groups.map fun g => g.2.length).sum

/-- C5 counterexample: `_calculate_dimensions` on a stored zero-row table
does not return the 1920×1080 default (with task-count 0, row-height 25,
column-width 14 as in the UI defaults). -/
theorem c5_counterexample :
    calculate_dimensions (some []) 0 25 14 ≠ some (1920, 1080) := by
  decide

/-- C5 (amended): the 1920×1080 fallback of `_calculate_dimensions` fires
when no dataframe has been stored (`current_df is None`), for any settings;
a stored zero-row table instead yields no valid dimensions, and `render`
never stores one because it returns `None` for an empty input before any
dimension computation. -/
theorem c5_default_dimensions_without_table (task_count : Nat)
    (row_height col_width : Int) (cols : List String) (cc : Option String) :
    calculate_dimensions none task_count row_height col_width = some (1920, 1080)
    ∧ calculate_dimensions (some []) task_count row_height col_width = none
    ∧ render ⟨cols, []⟩ cc = none :=
  ⟨rfl, rfl, rfl⟩

/-- Five demo tasks; two of them ("2" and "4") hold the empty string in the
color column "Team". -/
def fiveRow1 : Row := { taskID := "1", taskName := "a", startDate := 0, endDate := 1, cells := [("Team", some "X")] }

def fiveRow2 : Row := { taskID := "2", taskName := "b", startDate := 0, endDate := 2, cells := [("Team", some "")] }

def fiveRow3 : Row := { taskID := "3", taskName := "c", startDate := 1, endDate := 3, cells := [("Team", some "Y")] }

def fiveRow4 : Row := { taskID := "4", taskName := "d", startDate := 2, endDate := 4, cells := [("Team", some "")] }

def fiveRow5 : Row := { taskID := "5", taskName := "e", startDate := 3, endDate := 5, cells := [("Team", some "X")] }

/-- A 5-task table with color column "Team" where two tasks hold the empty
string. -/
def fiveDf : DataFrame :=
  { cols := ["TaskID", "TaskName", "StartDate", "EndDate", "Team"],
    rows := [fiveRow1, fiveRow2, fiveRow3, fiveRow4, fiveRow5] }

/-- C9: when an active color column is set, a row whose value in it is
missing or the empty string appears in no bar trace of the rendered chart;
and the described 5-task table with 2 empty-valued tasks renders to a chart
with exactly 3 bars. -/
theorem c9_empty_color_rows_excluded (df : DataFrame) (c : String) (r : Row)
    (hactive : colorActive (some c) df.cols = true)
    (hbad : r.cellOpt c = none ∨ r.cellOpt c = some "")
    (g : String × List Row)
    (hg : g ∈ (render df (some c)).getD []) :
    r ∉ g.2 ∧ totalBars (render fiveDf (some "Team")) = 3 := by
  have hkeep : keepColor c r = false := by
    rcases hbad with h | h
    · simp [keepColor, h]
    · simp [keepColor, h]
  constructor
  · intro hr
    by_cases hemp : df.rows.isEmpty
    · rw [render, if_pos hemp] at hg
      simp at hg
    · rw [render, if_neg hemp, if_pos hactive] at hg
      simp only [Option.getD_some] at hg
      by_cases h2 : (df.rows.filter (keepColor c)).isEmpty
      · rw [if_pos h2] at hg
        simp at hg
      · rw [if_neg h2] at hg
        simp only [Option.getD_some] at hg
        rw [create_gantt_chart, if_pos hactive] at hg
        obtain ⟨v, _hv, hgv⟩ := List.mem_map.mp hg
        rw [← hgv] at hr
        have hr2 := (List.mem_filter.mp hr).1
        rw [sortTasks, List.mem_insertionSort] at hr2
        have hk := (List.mem_filter.mp hr2).2
        simp only [Option.getD_some] at hk
        rw [hkeep] at hk
        exact Bool.false_ne_true hk
  · decide

/-- C9 witness: in the rendered 5-task chart, the "X" trace holds tasks 5
and 1; task 2 (empty "Team" value) is not in it, and the chart holds exactly
3 bars in total. -/
theorem c9_witness :
    fiveRow2 ∉ [fiveRow5, fiveRow1] ∧ totalBars (render fiveDf (some "Team")) = 3 :=
  c9_empty_color_rows_excluded fiveDf "Team" fiveRow2 (by decide) (Or.inr rfl)
    ("X", [fiveRow5, fiveRow1]) (by decide)

/-- A heap of dataframe objects: `cells[i]` is the table currently stored in
the i-th allocated dataframe. Used to model which pandas objects
`apply_filters` creates and which it writes to in place. -/
structure Heap where
  cells : List (List Row)
deriving DecidableEq

/-- Dereference a dataframe. -/
def Heap.read (h : Heap) (i : Nat) : List Row := h.cells.getD i []

/-- Models `df.copy()` or the fresh frame built by a row selection: allocates a new
dataframe object and returns its reference. -/
def Heap.alloc (h : Heap) (t : List Row) : Heap × Nat :=
  (⟨h.cells ++ [t]⟩, h.cells.length)

/-- An in-place column assignment `df[...] = ...`: overwrites the dataframe
object stored at `i`. -/
def Heap.write (h : Heap) (i : Nat) (t : List Row) : Heap :=
  ⟨h.cells.set i t⟩

/-- The per-column loop of `apply_filters` (Filter.py:267-270) as heap
operations: each `df = df[df[col].astype(str).isin(selected)]` builds a new
dataframe object and rebinds the local name; nothing is written in place. -/
def columnLoopProg (sels : List (String × List String)) (h : Heap) (r : Nat) :
    Heap × Nat :=
  match sels with
  | [] => (h, r)
  | p :: rest =>
    if p.2.isEmpty then columnLoopProg rest h r
    else
      let a := Heap.alloc h
        ((Heap.read h r).filter fun row => p.2.contains (row.getStr p.1))
      columnLoopProg rest a.1 a.2

/-- Embeds `apply_filters` (Filter.py:252-275) as a heap program: `df = df.copy()`
(line 256) allocates, the two date-column assignments (lines 261-262) write
in place to that copy, `df = df[mask].copy()` (line 265) and the column loop
allocate further objects. Returns the final heap and the reference handed
back to the caller. -/
def applyFiltersProg (spec : FilterSpec) (h : Heap) (df : Nat) : Heap × Nat :=
  if (Heap.read h df).isEmpty then (h, df)
  else
    let a1 := Heap.alloc h (Heap.read h df)
    let h2 := Heap.write a1.1 a1.2 ((Heap.read a1.1 a1.2).map normalizeDates)
    let a2 := Heap.alloc h2
      ((Heap.read h2 a1.2).filter (dateMask spec.startTs spec.endTs))
    columnLoopProg spec.selections a2.1 a2.2

lemma getD_concat_self (l : List (List Row)) (t : List Row) :
    (l ++ [t]).getD l.length [] = t := by
  rw [List.getD_append_right l [t] [] l.length le_rfl, Nat.sub_self]
  rfl

lemma columnLoopProg_spec (sels : List (String × List String)) :
    ∀ (h : Heap) (r : Nat),
      ∃ ext, (columnLoopProg sels h r).1.cells = h.cells ++ ext ∧
        Heap.read (columnLoopProg sels h r).1 (columnLoopProg sels h r).2 =
          applyColumnFilters sels (Heap.read h r) := by
  induction sels with
  | nil =>
    intro h r
    exact ⟨[], (List.append_nil h.cells).symm, rfl⟩
  | cons p rest ih =>
    intro h r
    rw [applyColumnFilters_cons]
    by_cases hp : p.2.isEmpty
    · rw [columnLoopProg, if_pos hp, if_pos hp]
      exact ih h r
    · rw [columnLoopProg, if_neg hp, if_neg hp]
      obtain ⟨ext, hcells, hread⟩ := ih
        (Heap.alloc h ((Heap.read h r).filter fun row => p.2.contains (row.getStr p.1))).1
        (Heap.alloc h ((Heap.read h r).filter fun row => p.2.contains (row.getStr p.1))).2
      refine ⟨((Heap.read h r).filter fun row => p.2.contains (row.getStr p.1)) :: ext, ?_, ?_⟩
      · rw [hcells]
        simp [Heap.alloc]
      · rw [hread]
        congr 1
        exact getD_concat_self h.cells _

lemma applyFiltersProg_spec (spec : FilterSpec) (h : Heap) (df : Nat) :
    ∃ ext, (applyFiltersProg spec h df).1.cells = h.cells ++ ext ∧
      Heap.read (applyFiltersProg spec h df).1 (applyFiltersProg spec h df).2 =
        applyFilters spec (Heap.read h df) := by
  by_cases hemp : (Heap.read h df).isEmpty
  · rw [applyFiltersProg, if_pos hemp, applyFilters, if_pos hemp]
    exact ⟨[], (List.append_nil h.cells).symm, rfl⟩
  · rw [applyFiltersProg, if_neg hemp, applyFilters, if_neg hemp]
    dsimp only
    have hr1 : Heap.read (Heap.alloc h (Heap.read h df)).1
        (Heap.alloc h (Heap.read h df)).2 = Heap.read h df :=
      getD_concat_self h.cells _
    rw [hr1]
    have hw : (Heap.write (Heap.alloc h (Heap.read h df)).1
        (Heap.alloc h (Heap.read h df)).2 ((Heap.read h df).map normalizeDates)).cells
        = h.cells ++ [(Heap.read h df).map normalizeDates] := by
      show (h.cells ++ [Heap.read h df]).set h.cells.length _ = _
      rw [List.set_append_right _ _ le_rfl, Nat.sub_self]
      rfl
    set h2 := Heap.write (Heap.alloc h (Heap.read h df)).1
      (Heap.alloc h (Heap.read h df)).2 ((Heap.read h df).map normalizeDates) with hh2
    have hr2 : Heap.read h2 (Heap.alloc h (Heap.read h df)).2 =
        (Heap.read h df).map normalizeDates := by
      show h2.cells.getD h.cells.length [] = _
      rw [hw]
      exact getD_concat_self h.cells _
    rw [hr2]
    obtain ⟨ext, hcells, hread⟩ := columnLoopProg_spec spec.selections
      (Heap.alloc h2 (((Heap.read h df).map normalizeDates).filter
        (dateMask spec.startTs spec.endTs))).1
      (Heap.alloc h2 (((Heap.read h df).map normalizeDates).filter
        (dateMask spec.startTs spec.endTs))).2
    refine ⟨((Heap.read h df).map normalizeDates) ::
      (((Heap.read h df).map normalizeDates).filter
        (dateMask spec.startTs spec.endTs)) :: ext, ?_, ?_⟩
    · rw [hcells]
      simp [Heap.alloc, hw]
    · rw [hread]
      congr 1
      have : (Heap.alloc h2 (((Heap.read h df).map normalizeDates).filter
          (dateMask spec.startTs spec.endTs))).1.cells =
          h2.cells ++ [((Heap.read h df).map normalizeDates).filter
            (dateMask spec.startTs spec.endTs)] := rfl
      show (Heap.alloc h2 _).1.cells.getD h2.cells.length [] = _
      rw [this]
      exact getD_concat_self h2.cells _

/-- C10: `apply_filters` never mutates its input — as a heap program it
writes only to the dataframe objects it allocates itself (the `df.copy()` of
Filter.py:256), so every pre-existing dataframe, in particular the caller's
input table at `df`, still holds exactly the same rows afterwards, and the
returned reference holds the pure filter result. -/
theorem c10_apply_filters_no_mutation (spec : FilterSpec) (h : Heap)
    (df j : Nat) (hj : j < h.cells.length) :
    Heap.read (applyFiltersProg spec h df).1 j = Heap.read h j
    ∧ Heap.read (applyFiltersProg spec h df).1 (applyFiltersProg spec h df).2 =
        applyFilters spec (Heap.read h df) := by
  obtain ⟨ext, hcells, hout⟩ := applyFiltersProg_spec spec h df
  refine ⟨?_, hout⟩
  show (applyFiltersProg spec h df).1.cells.getD j [] = h.cells.getD j []
  rw [hcells]
  exact List.getD_append _ _ _ _ hj

/-- A one-dataframe heap holding a single-task table, and a spec with an
active selection, for instantiating the frame theorem. -/
def c10Heap : Heap :=
  ⟨[[{ taskID := "9", taskName := "w", startDate := 2, endDate := 7,
       cells := [("Team", some "Z")] }]]⟩

def c10Spec : FilterSpec := ⟨0, 10, [("Team", ["Z"])]⟩

/-- C10 witness: the frame theorem instantiated on a concrete heap. -/
theorem c10_witness :
    Heap.read (applyFiltersProg c10Spec c10Heap 0).1 0 = Heap.read c10Heap 0
    ∧ Heap.read (applyFiltersProg c10Spec c10Heap 0).1
        (applyFiltersProg c10Spec c10Heap 0).2 =
        applyFilters c10Spec (Heap.read c10Heap 0) :=
  c10_apply_filters_no_mutation c10Spec c10Heap 0 0 (by decide)

end AsanaPrint
